import Mathlib

/-!
Verification of the AUTOSAR configuration tool core (composition building,
endpoint-matching validation, topology validation, serialization) against
its natural-language specification.  The Python classes are embedded as
Lean structures; methods that mutate state are embedded as functions from
the old state to the new state, and methods that raise become `Except`.
-/

/-- A communication port: a name and a direction string ("sender"/"receiver"). -/
structure Port where
  name : String
  port_type : String
deriving DecidableEq, BEq

/-- A runnable: a name, a trigger kind string and an optional period. -/
structure Runnable where
  name : String
  trigger : String
  period : Option Int
deriving DecidableEq, BEq

/-- A data element of an interface. -/
structure DataElement where
  name : String
  DataType : String
deriving DecidableEq, BEq

/-- An interface: name, kind, list of associated ports and data elements. -/
structure Interface where
  name : String
  interface_type : String
  associated_port : List Port
  data_elements : List DataElement
deriving DecidableEq, BEq

/-- A software component.  In the Python source `ports` is a dict mapping
port names to `Port` objects; here it is the list of the dict values in
insertion order (dict keys are exactly the port names). -/
structure SoftwareComponent where
  name : String
  component_type : String
  runnables : List Runnable
  ports : List Port
  interfaces : List Interface
deriving DecidableEq, BEq

/-- A software composition: a name and an ordered list of components. -/
structure SoftwareComposition where
  name : String
  software_components : List SoftwareComponent
deriving DecidableEq, BEq

/-- The single-quote character used by the Python error messages. -/
def squo : String := String.singleton (Char.ofNat 39)

/-- Message of `add_software_component` on a duplicate component name. -/
def dupComponentMsg (n : String) : String :=
  "A SoftwareComponent with the name " ++ squo ++ n ++ squo ++ " already exists."

/-- Message of `validate_port_connections` for an unmatched sender. -/
def unmatchedSenderMsg (p c : String) : String :=
  "Sender port " ++ squo ++ p ++ squo ++ " in component " ++ squo ++ c ++ squo ++
    " has no matching receiver."

/-- Message of `validate_port_connections` for an unmatched receiver. -/
def unmatchedReceiverMsg (p c : String) : String :=
  "Receiver port " ++ squo ++ p ++ squo ++ " in component " ++ squo ++ c ++ squo ++
    " has no matching sender."

/-- Message of `validate_topology` for a detected cycle. -/
def circularMsg (n : String) : String :=
  "Circular dependency detected involving component " ++ squo ++ n ++ squo ++ "."

/-- Message of `validate_component` for a component without ports. -/
def noPortsMsg (c : String) : String :=
  "Component " ++ squo ++ c ++ squo ++ " has no ports defined."

/-- Message of `validate_component` for duplicate port names. -/
def dupPortsMsg (c : String) : String :=
  "Duplicate port names found in component " ++ squo ++ c ++ squo ++ "."

/-- Message of `validate_component` for a periodic runnable without period. -/
def periodicMsg (r c : String) : String :=
  "Runnable " ++ squo ++ r ++ squo ++ " in component " ++ squo ++ c ++ squo ++
    " is periodic but has no period defined."

/-- Message of `add_port` on a duplicate port name. -/
def dupPortMsg (p c : String) : String :=
  "Port with the name " ++ squo ++ p ++ squo ++ " already exists in component " ++
    squo ++ c ++ squo ++ "."

/-- Message of `add_runnable` on a duplicate runnable name. -/
def dupRunnableMsg (r c : String) : String :=
  "Runnable with the name " ++ squo ++ r ++ squo ++ " already exists in component " ++
    squo ++ c ++ squo ++ "."

/-- Message of `add_interface` on an unknown port name. -/
def noPortMsg (p c : String) : String :=
  "No port named " ++ squo ++ p ++ squo ++ " found for component " ++ squo ++ c ++ squo ++ "."

/-- Python `port_name in component.ports` (dict-key membership). -/
def portNameMem (c : SoftwareComponent) (n : String) : Bool :=
  c.ports.any (fun p => p.name == n)

/-- Python `component.ports[port_name]` (dict lookup; only used under a
membership guard, the default is never returned on the guarded paths). -/
def getPort (c : SoftwareComponent) (n : String) : Port :=
  (c.ports.find? (fun p => p.name == n)).getD { name := n, port_type := "" }

/-- `SoftwareComposition.add_software_component`: rejects a duplicate
component name, otherwise appends to the component list. -/
def SoftwareComposition.add_software_component (comp : SoftwareComposition)
    (swc : SoftwareComponent) : Except String SoftwareComposition :=
  if comp.software_components.any (fun c => c.name == swc.name) then
    .error (dupComponentMsg swc.name)
  else
    .ok { comp with software_components := comp.software_components ++ [swc] }

/-- `SoftwareComposition.list_software_components`. -/
def SoftwareComposition.list_software_components (comp : SoftwareComposition) :
    List String :=
  comp.software_components.map (fun c => c.name)

/-- `SoftwareComponent.add_port`: rejects a duplicate port name, otherwise
stores the port under its name (a fresh dict key appends in insertion order). -/
def SoftwareComponent.add_port (c : SoftwareComponent) (p : Port) :
    Except String SoftwareComponent :=
  if portNameMem c p.name then
    .error (dupPortMsg p.name c.name)
  else
    .ok { c with ports := c.ports ++ [p] }

/-- `SoftwareComponent.add_runnable`: rejects a duplicate runnable name,
otherwise appends. -/
def SoftwareComponent.add_runnable (c : SoftwareComponent) (r : Runnable) :
    Except String SoftwareComponent :=
  if c.runnables.any (fun x => x.name == r.name) then
    .error (dupRunnableMsg r.name c.name)
  else
    .ok { c with runnables := c.runnables ++ [r] }

/-- `SoftwareComponent.add_interface`: walks the given port names, appending
each found port to the interface object, and raises at the first unknown
name.  The pair returns the `Except` outcome together with the final state
of the interface object, which in Python is mutated in place and therefore
keeps the ports appended before a raise. -/
def SoftwareComponent.add_interface (c : SoftwareComponent) (i : Interface) :
    List String → Except String SoftwareComponent × Interface
  | [] => (.ok { c with interfaces := c.interfaces ++ [i] }, i)
  | n :: rest =>
    if portNameMem c n then
      c.add_interface { i with associated_port := i.associated_port ++ [getPort c n] } rest
    else
      (.error (noPortMsg n c.name), i)

/-- `SoftwareComponent.validate_component`: a finding when the component has
no ports, a (defensive) finding when the stored port count differs from the
number of distinct port names, and one finding per periodic runnable with
no period. -/
def SoftwareComponent.validate_component (c : SoftwareComponent) : List String :=
  (if c.ports.isEmpty then [noPortsMsg c.name] else []) ++
  (if c.ports.length ≠ (c.ports.map Port.name).dedup.length then [dupPortsMsg c.name] else []) ++
  (c.runnables.filter (fun r => r.trigger == "periodic" && r.period == none)).map
    (fun r => periodicMsg r.name c.name)

/-- All `(component name, port)` pairs of the composition, in component
order then port insertion order (the `all_ports` list of
`validate_port_connections`). -/
def allPorts (comp : SoftwareComposition) : List (String × Port) :=
  comp.software_components.flatMap (fun c => c.ports.map (fun p => (c.name, p)))

/-- `SoftwareComposition.validate_port_connections`: reports every sender
port with no receiver port of the same name anywhere in the composition,
then every receiver port with no sender port of the same name. -/
def SoftwareComposition.validate_port_connections (comp : SoftwareComposition) :
    List String :=
  let all_ports := allPorts comp
  let sender_ports := all_ports.filter (fun p => p.2.port_type == "sender")
  let receiver_ports := all_ports.filter (fun p => p.2.port_type == "receiver")
  let unmatched_senders :=
    sender_ports.filter (fun p => !(receiver_ports.any (fun r => p.2.name == r.2.name)))
  let unmatched_receivers :=
    receiver_ports.filter (fun p => !(sender_ports.any (fun s => p.2.name == s.2.name)))
  unmatched_senders.map (fun p => unmatchedSenderMsg p.2.name p.1) ++
    unmatched_receivers.map (fun p => unmatchedReceiverMsg p.2.name p.1)

/-- State of the depth-first traversal of `validate_topology`: the error
list, the permanently visited set and the active exploration stack. -/
structure TopoState where
  errors : List String
  visited : List String
  stack : List String
deriving DecidableEq, BEq

/-- The recursive `visit` closure of `validate_topology`.  A node already on
the stack is reported and the branch stops; an unvisited node is pushed,
marked visited, every component sharing one of its port names (the node
itself included) is visited, and the node is popped.  The fuel argument
only bounds the recursion depth; the Python recursion depth is bounded by
the number of components plus one, since every frame that recurses adds a
fresh component name to `visited`, so fuel of that size never runs out. -/
def visit (comps : List SoftwareComponent) :
    Nat → SoftwareComponent → TopoState → TopoState
  | 0, _, st => st
  | fuel + 1, c, st =>
    if st.stack.contains c.name then
      { st with errors := st.errors ++ [circularMsg c.name] }
    else if st.visited.contains c.name then
      st
    else
      let st1 : TopoState :=
        { st with stack := st.stack ++ [c.name], visited := c.name :: st.visited }
      let st2 := c.ports.foldl
        (fun acc port =>
          (comps.filter (fun cc => portNameMem cc port.name)).foldl
            (fun acc2 cc => visit comps fuel cc acc2) acc)
        st1
      { st2 with stack := st2.stack.dropLast }

/-- `SoftwareComposition.validate_topology`: depth-first traversal from each
component in composition order, sharing the visited set across roots. -/
def SoftwareComposition.validate_topology (comp : SoftwareComposition) :
    List String :=
  let comps := comp.software_components
  (comps.foldl (fun st c => visit comps (comps.length + 1) c st)
    { errors := [], visited := [], stack := [] }).errors

/-- `SoftwareComposition.validate_composition`: per-component findings in
composition order, then port-connection findings, then topology findings. -/
def SoftwareComposition.validate_composition (comp : SoftwareComposition) :
    List String :=
  (comp.software_components.foldl (fun errs c => errs ++ c.validate_component) []) ++
    comp.validate_port_connections ++ comp.validate_topology

/-- JSON shape of one port entry of `to_json`. -/
structure PortJson where
  name : String
  type : String
deriving DecidableEq, BEq

/-- JSON shape of one runnable entry of `to_json`. -/
structure RunnableJson where
  name : String
  trigger : String
  period : Option Int
deriving DecidableEq, BEq

/-- JSON shape of one data element entry of `to_json`. -/
structure DataElementJson where
  name : String
  type : String
deriving DecidableEq, BEq

/-- JSON shape of one interface entry of `to_json`. -/
structure InterfaceJson where
  name : String
  type : String
  associated_ports : List String
  data_elements : List DataElementJson
deriving DecidableEq, BEq

/-- JSON shape of one component entry of `to_json`. -/
structure ComponentJson where
  name : String
  type : String
  ports : List PortJson
  runnables : List RunnableJson
  interfaces : List InterfaceJson
deriving DecidableEq, BEq

/-- JSON shape of the whole document of `to_json`. -/
structure CompositionJson where
  composition_name : String
  components : List ComponentJson
deriving DecidableEq, BEq

/-- `SoftwareComposition.to_json`: the serializable snapshot of the
composition. -/
def SoftwareComposition.to_json (comp : SoftwareComposition) : CompositionJson :=
  { composition_name := comp.name,
    components := comp.software_components.map (fun c =>
      { name := c.name,
        type := c.component_type,
        ports := c.ports.map (fun p => { name := p.name, type := p.port_type }),
        runnables := c.runnables.map (fun r =>
          { name := r.name, trigger := r.trigger,
            period := if r.trigger == "periodic" then r.period else none }),
        interfaces := c.interfaces.map (fun i =>
          { name := i.name,
            type := i.interface_type,
            associated_ports := i.associated_port.map (fun p => p.name),
            data_elements := i.data_elements.map (fun d =>
              { name := d.name, type := d.DataType }) }) }) }

/-- Python dict assignment `ports[p.name] = p`: an existing key keeps its
position and gets the new value, a fresh key is appended.  This captures
every way a Python dict keyed by port name can be populated, including
paths that bypass `add_port`. -/
def dictInsert (ps : List Port) (p : Port) : List Port :=
  if ps.any (fun x => x.name == p.name) then
    ps.map (fun x => if x.name == p.name then p else x)
  else
    ps ++ [p]

/-- Component A of the two-component fixture: one sender endpoint "X". -/
def compA : SoftwareComponent :=
  { name := "A", component_type := "t", runnables := [],
    ports := [{ name := "X", port_type := "sender" }], interfaces := [] }

/-- Component B of the two-component fixture: one receiver endpoint "X". -/
def compB : SoftwareComponent :=
  { name := "B", component_type := "t", runnables := [],
    ports := [{ name := "X", port_type := "receiver" }], interfaces := [] }

/-- The two-component composition A, B sharing the single endpoint name "X". -/
def compAB : SoftwareComposition :=
  { name := "ab", software_components := [compA, compB] }

/-- Triangle fixture, component A: sender "ab", receiver "ca". -/
def triA : SoftwareComponent :=
  { name := "A", component_type := "t", runnables := [],
    ports := [{ name := "ab", port_type := "sender" },
              { name := "ca", port_type := "receiver" }], interfaces := [] }

/-- Triangle fixture, component B: receiver "ab", sender "bc". -/
def triB : SoftwareComponent :=
  { name := "B", component_type := "t", runnables := [],
    ports := [{ name := "ab", port_type := "receiver" },
              { name := "bc", port_type := "sender" }], interfaces := [] }

/-- Triangle fixture, component C: receiver "bc", sender "ca". -/
def triC : SoftwareComponent :=
  { name := "C", component_type := "t", runnables := [],
    ports := [{ name := "bc", port_type := "receiver" },
              { name := "ca", port_type := "sender" }], interfaces := [] }

/-- The three-component composition where each pair shares one distinct
endpoint name: A and B share "ab", B and C share "bc", C and A share "ca". -/
def compABC : SoftwareComposition :=
  { name := "abc", software_components := [triA, triB, triC] }

/-- Claim C1: on the two-component composition where A owns sender "X" and
B owns receiver "X", endpoint matching indeed reports nothing, but
`validate_topology` does NOT exclude the immediate parent bounce or the
component's self-connection through its own shared port name: it emits
three circular-dependency findings where the claim requires zero, so the
full run is not finding-free. -/
theorem c1_parent_bounce_is_flagged :
    compAB.validate_port_connections = [] ∧
    compAB.validate_topology = [circularMsg "A", circularMsg "A", circularMsg "B"] ∧
    compAB.validate_composition ≠ [] := by
  refine ⟨by decide, by decide, by decide⟩

/-- Claim C2: on the three-component triangle composition (pairwise shared
endpoint names "ab", "bc", "ca"), `validate_topology` emits nine
circular-dependency findings, not the single finding the claim requires. -/
theorem c2_triangle_nine_findings :
    compABC.validate_topology =
      [circularMsg "A", circularMsg "A", circularMsg "B", circularMsg "B",
       circularMsg "B", circularMsg "C", circularMsg "A", circularMsg "C",
       circularMsg "A"] ∧
    (compABC.validate_topology).length = 9 := by
  refine ⟨by decide, by decide⟩

/-- Mapping after filtering equals, element by element, contributing the
singleton finding exactly when the predicate holds. -/
theorem filter_map_eq_flatMap {α β : Type} (l : List α) (p : α → Bool) (f : α → β) :
    (l.filter p).map f = l.flatMap (fun a => if p a then [f a] else []) := by
  induction l with
  | nil => rfl
  | cons a t ih =>
    cases hpa : p a <;> simp [List.filter_cons, hpa, ih]

/-- The error-accumulating loop of `validate_composition` is concatenation
of the per-element findings. -/
theorem foldl_append_findings {α β : Type} (f : α → List β) (l : List α) (acc : List β) :
    l.foldl (fun errs c => errs ++ f c) acc = acc ++ l.flatMap f := by
  induction l generalizing acc with
  | nil => simp
  | cons a t ih => simp [ih, List.append_assoc]

/-- Claim C3: for a component whose endpoint names are unique (as enforced
by the registration operations), the structural check returns exactly one
finding when the component has no endpoints, plus exactly one finding per
periodic runnable with absent period (so an event-driven runnable with
absent period contributes nothing), and no other findings. -/
theorem c3_validate_component_exact (c : SoftwareComponent)
    (h : (c.ports.map Port.name).Nodup) :
    c.validate_component =
      (if c.ports.isEmpty then [noPortsMsg c.name] else []) ++
      c.runnables.flatMap (fun r =>
        if r.trigger == "periodic" && r.period == none
        then [periodicMsg r.name c.name] else []) := by
  have hlen : c.ports.length = ((c.ports.map Port.name).dedup).length := by
    rw [List.dedup_eq_self.mpr h, List.length_map]
  simp [SoftwareComponent.validate_component, hlen, filter_map_eq_flatMap]

/-- Fixture for the structural check: one port, one periodic runnable with
no period, one event-based runnable with no period. -/
def c3comp : SoftwareComponent :=
  { name := "K", component_type := "t",
    runnables := [{ name := "r1", trigger := "periodic", period := none },
                  { name := "r2", trigger := "event-based", period := none }],
    ports := [{ name := "p", port_type := "sender" }], interfaces := [] }

/-- Witness for claim C3 at a concrete component: only the periodic
runnable without a period is reported. -/
theorem c3_witness : c3comp.validate_component = [periodicMsg "r1" "K"] :=
  (c3_validate_component_exact c3comp (by decide)).trans (by decide)

/-- A Python dict assignment never changes the key set except by appending
a fresh key, so the stored names stay duplicate-free. -/
theorem dictInsert_names (ps : List Port) (p : Port) :
    (dictInsert ps p).map Port.name =
      if ps.any (fun x => x.name == p.name) then ps.map Port.name
      else ps.map Port.name ++ [p.name] := by
  unfold dictInsert
  by_cases hc : ps.any (fun x => x.name == p.name) = true
  · rw [if_pos hc, if_pos hc, List.map_map]
    apply List.map_congr_left
    intro x _
    by_cases hx : (x.name == p.name) = true
    · simp [Function.comp, hx, (beq_iff_eq.mp hx).symm]
    · simp [Function.comp, hx]
  · rw [if_neg hc, if_neg hc]
    simp

/-- Inserting into a name-keyed dict preserves uniqueness of the names. -/
theorem nodup_dictInsert (ps : List Port) (p : Port)
    (h : (ps.map Port.name).Nodup) : ((dictInsert ps p).map Port.name).Nodup := by
  rw [dictInsert_names]
  by_cases hc : ps.any (fun x => x.name == p.name) = true
  · rwa [if_pos hc]
  · rw [if_neg hc]
    rw [Bool.not_eq_true] at hc
    rw [List.nodup_append]
    refine ⟨h, List.nodup_singleton _, ?_⟩
    intro a ha hb
    simp only [List.mem_singleton] at hb
    subst hb
    rcases List.mem_map.mp ha with ⟨x, hx, hxn⟩
    have := List.any_eq_false.mp hc x hx
    simp [hxn] at this

/-- Any sequence of dict insertions starting from the empty dict yields
duplicate-free port names. -/
theorem foldl_dictInsert_nodup (ps : List Port) :
    ∀ acc : List Port, (acc.map Port.name).Nodup →
      ((ps.foldl dictInsert acc).map Port.name).Nodup := by
  induction ps with
  | nil => intro acc h; simpa using h
  | cons p t ih =>
    intro acc h
    exact ih (dictInsert acc p) (nodup_dictInsert acc p h)

/-- Claim C9: for a port collection populated through dict insertions (the
only way the Python `ports` mapping can be populated, with or without
`add_port`), the stored port count always equals the number of distinct
port names, so the defensive duplicate-name branch of `validate_component`
never fires: the check result consists only of the missing-ports finding
and the periodic-runnable findings. -/
theorem c9_dup_branch_unreachable (ps : List Port) :
    ((List.foldl dictInsert [] ps).map Port.name).Nodup ∧
    (List.foldl dictInsert [] ps).length =
      ((List.foldl dictInsert [] ps).map Port.name).dedup.length ∧
    ∀ (n t : String) (rs : List Runnable) (ifs : List Interface),
      SoftwareComponent.validate_component
          { name := n, component_type := t, runnables := rs,
            ports := List.foldl dictInsert [] ps, interfaces := ifs } =
        (if (List.foldl dictInsert [] ps).isEmpty then [noPortsMsg n] else []) ++
        (rs.filter (fun r => r.trigger == "periodic" && r.period == none)).map
          (fun r => periodicMsg r.name n) := by
  have hnd : ((List.foldl dictInsert [] ps).map Port.name).Nodup :=
    foldl_dictInsert_nodup ps [] (by simp)
  have hlen : (List.foldl dictInsert [] ps).length =
      ((List.foldl dictInsert [] ps).map Port.name).dedup.length := by
    rw [List.dedup_eq_self.mpr hnd, List.length_map]
  refine ⟨hnd, hlen, ?_⟩
  intro n t rs ifs
  simp [SoftwareComponent.validate_component, hlen]

/-- Claim C8: serialization preserves every count: the snapshot has as many
component entries as the composition has components, and per component the
serialized ports, runnables and interfaces lists have the in-memory
lengths, in order. -/
theorem c8_to_json_counts (comp : SoftwareComposition) :
    (comp.to_json).components.length = comp.software_components.length ∧
    (comp.to_json).components.map (fun c => c.ports.length) =
      comp.software_components.map (fun c => c.ports.length) ∧
    (comp.to_json).components.map (fun c => c.runnables.length) =
      comp.software_components.map (fun c => c.runnables.length) ∧
    (comp.to_json).components.map (fun c => c.interfaces.length) =
      comp.software_components.map (fun c => c.interfaces.length) := by
  refine ⟨?_, ?_, ?_, ?_⟩ <;>
    simp [SoftwareComposition.to_json, List.map_map, Function.comp]

/-- Claim C5: adding a component whose (case-sensitively compared) name is
already present fails with the duplicate-name error, and adding a component
with a fresh name appends it at the end of the component list. -/
theorem c5_add_software_component_spec (comp : SoftwareComposition)
    (swc : SoftwareComponent) :
    ((∃ c ∈ comp.software_components, c.name = swc.name) →
      comp.add_software_component swc = .error (dupComponentMsg swc.name)) ∧
    ((∀ c ∈ comp.software_components, c.name ≠ swc.name) →
      comp.add_software_component swc =
        .ok { comp with software_components := comp.software_components ++ [swc] }) := by
  constructor
  · rintro ⟨c, hc, hname⟩
    have : comp.software_components.any (fun x => x.name == swc.name) = true :=
      List.any_eq_true.mpr ⟨c, hc, by simp [hname]⟩
    simp [SoftwareComposition.add_software_component, this]
  · intro hall
    have : comp.software_components.any (fun x => x.name == swc.name) = false := by
      rw [List.any_eq_false]
      intro c hc
      simp [hall c hc]
    simp [SoftwareComposition.add_software_component, this]

/-- Witness for claim C5: with A present, re-adding A fails with the
duplicate-name error, while adding B appends it at the end. -/
theorem c5_witness :
    (SoftwareComposition.mk "s" [compA]).add_software_component compA =
      .error (dupComponentMsg "A") ∧
    (SoftwareComposition.mk "s" [compA]).add_software_component compB =
      .ok (SoftwareComposition.mk "s" [compA, compB]) :=
  ⟨(c5_add_software_component_spec (SoftwareComposition.mk "s" [compA]) compA).1
      ⟨compA, by simp, rfl⟩,
   (c5_add_software_component_spec (SoftwareComposition.mk "s" [compA]) compB).2
      (by intro c hc; simp only [List.mem_singleton] at hc; subst hc; decide)⟩

/-- Claim C6: the orchestrator's report is the concatenation of the
per-component structural findings in composition order, then the
endpoint-matching findings, then the topology findings, and an empty
composition yields the empty report. -/
theorem c6_orchestrator_order :
    (∀ comp : SoftwareComposition,
      comp.validate_composition =
        comp.software_components.flatMap SoftwareComponent.validate_component ++
          comp.validate_port_connections ++ comp.validate_topology) ∧
    (∀ n : String, (SoftwareComposition.mk n []).validate_composition = []) := by
  constructor
  · intro comp
    unfold SoftwareComposition.validate_composition
    rw [foldl_append_findings]
    simp
  · intro n
    rfl

/-- An endpoint pair is outbound when its direction string is "sender". -/
def is_outbound (p : String × Port) : Bool := p.2.port_type == "sender"

/-- An endpoint pair is inbound when its direction string is "receiver". -/
def is_inbound (p : String × Port) : Bool := p.2.port_type == "receiver"

/-- Spec wording: an outbound endpoint is matched when some inbound
endpoint anywhere in the composition (any component, the same one
included) bears the identical name. -/
def matched_outbound (comp : SoftwareComposition) (p : String × Port) : Bool :=
  (allPorts comp).any (fun r => is_inbound r && p.2.name == r.2.name)

/-- Spec wording: an inbound endpoint is matched when some outbound
endpoint anywhere in the composition bears the identical name. -/
def matched_inbound (comp : SoftwareComposition) (p : String × Port) : Bool :=
  (allPorts comp).any (fun s => is_outbound s && p.2.name == s.2.name)

/-- The endpoint-matching report as described by the spec: one finding per
unmatched physical outbound (component, endpoint) instance, in component
iteration order, then one finding per unmatched physical inbound instance,
in the same order. -/
def port_connections_from_spec (comp : SoftwareComposition) : List String :=
  ((allPorts comp).filter (fun p => is_outbound p && !matched_outbound comp p)).map
    (fun p => unmatchedSenderMsg p.2.name p.1) ++
  ((allPorts comp).filter (fun p => is_inbound p && !matched_inbound comp p)).map
    (fun p => unmatchedReceiverMsg p.2.name p.1)

/-- Claim C4: the endpoint-matching validator computes exactly the
spec-described report: matched means a same-named opposite-direction
endpoint exists anywhere (same component allowed), one finding per
unmatched physical endpoint instance, all unmatched-outbound findings
first in component iteration order, then the unmatched-inbound findings in
the same order. -/
theorem c4_port_connections_refine_spec (comp : SoftwareComposition) :
    comp.validate_port_connections = port_connections_from_spec comp := by
  unfold SoftwareComposition.validate_port_connections port_connections_from_spec
  unfold matched_outbound matched_inbound is_outbound is_inbound
  simp only [List.any_filter, List.filter_filter]
  congr 1
  · congr 1
    apply List.filter_congr
    intro p _
    rw [Bool.and_comm]
  · congr 1
    apply List.filter_congr
    intro p _
    rw [Bool.and_comm]

/-- Whether an `Except` outcome is a raised error. -/
def isError {ε α : Type} : Except ε α → Bool
  | .error _ => true
  | .ok _ => false

/-- When every requested port name exists on the component,
`add_interface` succeeds: the interface gains the looked-up ports in
request order and is appended to the component's interface list. -/
theorem add_interface_all_mem (c : SoftwareComponent) :
    ∀ (names : List String) (i : Interface),
      (∀ n ∈ names, portNameMem c n = true) →
      c.add_interface i names =
        (Except.ok { c with interfaces := c.interfaces ++
            [{ i with associated_port := i.associated_port ++ names.map (getPort c) }] },
         { i with associated_port := i.associated_port ++ names.map (getPort c) })
  | [], i, _ => by
      simp [SoftwareComponent.add_interface]
  | n :: rest, i, h => by
      have hn : portNameMem c n = true := h n (by simp)
      rw [SoftwareComponent.add_interface, if_pos hn,
        add_interface_all_mem c rest _ (fun m hm => h m (by simp [hm]))]
      simp [List.append_assoc]

/-- When some requested port name is missing, `add_interface` raises. -/
theorem add_interface_raises (c : SoftwareComponent) :
    ∀ (names : List String) (i : Interface),
      (∃ n ∈ names, portNameMem c n = false) →
      isError (c.add_interface i names).1 = true
  | [], _, h => by simp at h
  | n :: rest, i, h => by
      by_cases hn : portNameMem c n = true
      · rw [SoftwareComponent.add_interface, if_pos hn]
        apply add_interface_raises c rest
        rcases h with ⟨m, hm, hf⟩
        rcases List.mem_cons.mp hm with hmn | hmr
        · subst hmn; rw [hn] at hf; cases hf
        · exact ⟨m, hmr, hf⟩
      · rw [SoftwareComponent.add_interface, if_neg hn]
        rfl

/-- Claim C7: associating an interface with a list of port names succeeds,
appending the contract to the component's contract list, exactly when every
name denotes an existing port of the component; an unknown name in the
list makes the whole operation raise an error to the caller instead of
being silently skipped. -/
theorem c7_add_interface_hard_error (c : SoftwareComponent) (i : Interface)
    (names : List String) :
    ((∀ n ∈ names, portNameMem c n = true) →
      c.add_interface i names =
        (Except.ok { c with interfaces := c.interfaces ++
            [{ i with associated_port := i.associated_port ++ names.map (getPort c) }] },
         { i with associated_port := i.associated_port ++ names.map (getPort c) })) ∧
    ((∃ n ∈ names, portNameMem c n = false) →
      isError (c.add_interface i names).1 = true) :=
  ⟨add_interface_all_mem c names i, add_interface_raises c names i⟩

/-- Fixture component for interface association: two ports p1, p2. -/
def c7comp : SoftwareComponent :=
  { name := "W", component_type := "t", runnables := [],
    ports := [{ name := "p1", port_type := "sender" },
              { name := "p2", port_type := "receiver" }], interfaces := [] }

/-- Fixture interface with no associated ports yet. -/
def iface0 : Interface :=
  { name := "I", interface_type := "senderReceiver",
    associated_port := [], data_elements := [] }

/-- Witness for claim C7: associating with the two existing names succeeds
and appends the contract; associating with an unknown name raises. -/
theorem c7_witness :
    c7comp.add_interface iface0 ["p1", "p2"] =
      (Except.ok { c7comp with interfaces := c7comp.interfaces ++
          [{ iface0 with associated_port :=
              iface0.associated_port ++ (["p1", "p2"]).map (getPort c7comp) }] },
       { iface0 with associated_port :=
          iface0.associated_port ++ (["p1", "p2"]).map (getPort c7comp) }) ∧
    isError (c7comp.add_interface iface0 ["p1", "zz"]).1 = true :=
  ⟨(c7_add_interface_hard_error c7comp iface0 ["p1", "p2"]).1 (by decide),
   (c7_add_interface_hard_error c7comp iface0 ["p1", "zz"]).2
      ⟨"zz", by simp, by decide⟩⟩

/-- Claim C10: `add_interface` is not atomic on error.  If the first
unknown port name sits at position k of the request list, the raised error
names that port, and the interface object has already been mutated: the
ports named by positions 0..k-1 are appended to its associated-port list.
The component itself (in particular its interface list) is unchanged,
since the raise happens before the contract is appended. -/
theorem c10_add_interface_mutates_before_raise (c : SoftwareComponent) :
    ∀ (names : List String) (i : Interface) (k : Nat) (hk : k < names.length),
      (names.take k).all (fun n => portNameMem c n) = true →
      portNameMem c (names.get ⟨k, hk⟩) = false →
      c.add_interface i names =
        (Except.error (noPortMsg (names.get ⟨k, hk⟩) c.name),
         { i with associated_port :=
            i.associated_port ++ (names.take k).map (getPort c) })
  | [], _, k, hk, _, _ => by cases hk
  | n :: rest, i, 0, hk, _, hmiss => by
      rw [SoftwareComponent.add_interface, if_neg]
      · simp
      · simp only [List.get] at hmiss
        simp [hmiss]
  | n :: rest, i, k + 1, hk, hpre, hmiss => by
      have hsplit : (portNameMem c n &&
          (rest.take k).all (fun m => portNameMem c m)) = true := by
        simpa using hpre
      have hn : portNameMem c n = true := (Bool.and_eq_true_iff.mp hsplit).1
      rw [SoftwareComponent.add_interface, if_pos hn,
        c10_add_interface_mutates_before_raise c rest _ k
          (Nat.lt_of_succ_lt_succ hk)
          ((Bool.and_eq_true_iff.mp hsplit).2)
          (by simpa using hmiss)]
      simp [List.append_assoc]

/-- Witness for claim C10: with ports p1, p2 present and the request list
[p1, zz, p2], the first unknown name zz sits at position 1; the call
raises naming zz, and the interface has already received the port looked
up for position 0. -/
theorem c10_witness :
    c7comp.add_interface iface0 ["p1", "zz", "p2"] =
      (Except.error (noPortMsg ((["p1", "zz", "p2"]).get ⟨1, by decide⟩) c7comp.name),
       { iface0 with associated_port :=
          iface0.associated_port ++ ((["p1", "zz", "p2"]).take 1).map (getPort c7comp) }) :=
  c10_add_interface_mutates_before_raise c7comp ["p1", "zz", "p2"] iface0 1
    (by decide) (by decide) (by decide)
